import Mathlib

/-!
Verification of the MCP-Gateway federation core (TypeScript sources under
`src/`) against its natural-language specification.

The development shallowly embeds the relevant program parts:

* `src/core/router.ts` — namespacing (create/parse of namespaced names and
  URIs) and request routing (`routeToolCall`);
* `src/core/registry.ts` — the adapter registry and `getMergedCapabilities`;
* `src/core/gateway.ts` — the gateway facade (`routeMethod`, `handleRequest`,
  session sweeping);
* `src/adapters/base.ts` — the circuit breaker, the retry/backoff supervisor
  and the synchronous prefix of `sendRequest`;
* `src/api/mcp-routes.ts` — the zod request schema and the POST /message
  handler's id handling.

Strings are Lean `String`s (lists of characters), machine numbers are `ℕ`,
`ℤ` or `ℚ` (JavaScript numbers are doubles, but every quantity handled here
— counters, millisecond timestamps, thresholds — stays far inside the
exactly-representable range, so exact arithmetic is faithful), and dynamic
JSON payloads are a small inductive `Json` type.
-/

namespace MCPGateway

/-! ## Router namespacing (src/core/router.ts)

`NAMESPACE_SEPARATOR` is the two-character string `"__"`.  Names are
namespaced as `serverId ++ "__" ++ name`; URIs as `serverId ++ "://" ++ uri`.
-/

/-- `NAMESPACE_SEPARATOR = '__'` from router.ts. -/
def NAMESPACE_SEPARATOR : String := "__"

/-- `Router.createNamespacedName`: `` `${serverId}${NAMESPACE_SEPARATOR}${name}` ``. -/
def createNamespacedName (serverId name : String) : String :=
  serverId ++ NAMESPACE_SEPARATOR ++ name

/-- Index of the first occurrence of the two-character separator `"__"` in a
character list; mirrors JavaScript `String.prototype.indexOf('__')` (`none`
for `-1`). -/
def sepIndexL : List Char → Option Nat
  | [] => none
  | c :: rest =>
    if c = '_' ∧ rest.head? = some '_' then some 0
    else (sepIndexL rest).map (· + 1)

/-- `Router.parseNamespacedName` on the underlying character list:
`indexOf(NAMESPACE_SEPARATOR)`, then `substring(0, i)` and
`substring(i + 2)`; `null` when the separator is absent or either half is
empty (JavaScript's falsiness check on the two substrings). -/
def parseNamespacedNameCore (l : List Char) : Option (List Char × List Char) :=
  match sepIndexL l with
  | none => none
  | some i =>
    let serverId := l.take i
    let originalName := l.drop (i + 2)
    if serverId.isEmpty || originalName.isEmpty then none
    else some (serverId, originalName)

/-- `Router.parseNamespacedName` (string level). -/
def parseNamespacedName (namespacedName : String) : Option (String × String) :=
  (parseNamespacedNameCore namespacedName.toList).map
    (fun p => (String.mk p.1, String.mk p.2))

/-- `Router.createNamespacedUri`: `` `${serverId}://${uri}` ``. -/
def createNamespacedUri (serverId uri : String) : String :=
  serverId ++ "://" ++ uri

/-- Character class `[a-zA-Z]` of the URI-parsing regular expression. -/
def isRegexAlpha (c : Char) : Bool :=
  c.isUpper || c.isLower

/-- Character class `[a-zA-Z0-9_-]` of the URI-parsing regular expression. -/
def isIdChar (c : Char) : Bool :=
  isRegexAlpha c || c.isDigit || c == '_' || c == '-'

/-- JavaScript line terminators, which `.` does not match in a regular
expression without the `s` flag: LF, CR, LINE SEPARATOR, PARAGRAPH
SEPARATOR. -/
def isLineTerm (c : Char) : Bool :=
  c == '\n' || c == '\r' || c == '\u2028' || c == '\u2029'

/-- `Router.parseNamespacedUri` on the underlying character list.  The source
matches `/^([a-zA-Z][a-zA-Z0-9_-]*):\/\/(.+)$/`.  Because `:` is not in the
first group's character class, the greedy first group can only end at the end
of the maximal leading run of `[a-zA-Z0-9_-]` characters (backtracking to a
shorter prefix would leave the next literal `:` facing a member of the class),
so the regex match is equivalent to: a letter-led maximal identifier run,
immediately followed by the literal `://`, followed by a non-empty remainder
containing no line terminator (without the `s` and `m` flags, `.` excludes
line terminators and `$` anchors at the very end). -/
def parseNamespacedUriCore (l : List Char) : Option (List Char × List Char) :=
  match l with
  | [] => none
  | c :: rest =>
    if isRegexAlpha c then
      match rest.dropWhile isIdChar with
      | ':' :: '/' :: '/' :: tail =>
        if tail.isEmpty || tail.any isLineTerm then none
        else some (c :: rest.takeWhile isIdChar, tail)
      | _ => none
    else none

/-- `Router.parseNamespacedUri` (string level). -/
def parseNamespacedUri (namespacedUri : String) : Option (String × String) :=
  (parseNamespacedUriCore namespacedUri.toList).map
    (fun p => (String.mk p.1, String.mk p.2))

/-- The backend-identifier pattern `^[A-Za-z][A-Za-z0-9_-]{0,63}$` from the
specification (§6 Namespacing). -/
def matchesIdPattern (s : String) : Bool :=
  match s.toList with
  | [] => false
  | c :: rest => isRegexAlpha c && rest.all isIdChar && decide (rest.length ≤ 63)

/-- An identifier is safe for the `__` name scheme when it contains no `__`
and does not end in `_`; equivalently, `id ++ "_"` contains no `__`. -/
def idSafeForNames (s : String) : Bool :=
  (sepIndexL (s.toList ++ ['_'])).isNone

/-! Helper lemmas about `sepIndexL`, `takeWhile` and `dropWhile`. -/

lemma sepIndexL_append_sep (s n : List Char)
    (h : sepIndexL (s ++ ['_']) = none) :
    sepIndexL (s ++ '_' :: '_' :: n) = some s.length := by
  induction s with
  | nil =>
    simp [sepIndexL]
  | cons c s' ih =>
    rw [List.cons_append] at h
    rw [List.cons_append]
    unfold sepIndexL at h ⊢
    by_cases hc : c = '_' ∧ (s' ++ '_' :: '_' :: n).head? = some '_'
    · exfalso
      rcases hc with ⟨hc1, hc2⟩
      cases s' with
      | nil => simp [sepIndexL, hc1] at h
      | cons d s'' =>
        simp only [List.cons_append, List.head?_cons] at hc2
        simp [sepIndexL, hc1, hc2] at h
    · rw [if_neg hc]
      have hs' : sepIndexL (s' ++ ['_']) = none := by
        by_cases hc' : c = '_' ∧ (s' ++ ['_']).head? = some '_'
        · exfalso
          rcases hc' with ⟨hc1, hc2⟩
          cases s' with
          | nil => exact hc ⟨hc1, by simp⟩
          | cons d s'' =>
            simp only [List.cons_append, List.head?_cons] at hc2
            exact hc ⟨hc1, by simp [hc2]⟩
        · rw [if_neg hc'] at h
          exact Option.map_eq_none'.mp h
      rw [ih hs']
      simp

lemma takeWhile_append_stop (p : Char → Bool) (l₁ : List Char) (c : Char)
    (t : List Char) (h : l₁.all p = true) (hc : p c = false) :
    (l₁ ++ c :: t).takeWhile p = l₁ := by
  induction l₁ with
  | nil => simp [List.takeWhile, hc]
  | cons d l' ih =>
    simp only [List.all_cons, Bool.and_eq_true] at h
    simp [List.takeWhile, h.1, ih h.2]

lemma dropWhile_append_stop (p : Char → Bool) (l₁ : List Char) (c : Char)
    (t : List Char) (h : l₁.all p = true) (hc : p c = false) :
    (l₁ ++ c :: t).dropWhile p = c :: t := by
  induction l₁ with
  | nil => simp [List.dropWhile, hc]
  | cons d l' ih =>
    simp only [List.all_cons, Bool.and_eq_true] at h
    simp [List.dropWhile, h.1, ih h.2]

/-- **C1 counterexample.** The round-trip claim fails as stated, at two
explicit inputs.  (1) Backend id `"a_"` matches `^[A-Za-z][A-Za-z0-9_-]{0,63}$`,
yet encoding the name `"x"` under it yields `"a___x"`, whose first `__`
occurrence is at index 1, so decoding returns `("a", "_x")`, not
`("a_", "x")`.  (2) Backend id `"a"` matches the pattern, yet the namespaced
URI for `"x\ny"` fails to parse at all, because `.` in the parsing regex does
not match a line feed. -/
theorem roundtrip_counterexample :
    matchesIdPattern "a_" = true ∧
    parseNamespacedName (createNamespacedName "a_" "x") ≠ some ("a_", "x") ∧
    matchesIdPattern "a" = true ∧
    parseNamespacedUri (createNamespacedUri "a" "x\ny") ≠ some ("a", "x\ny") := by
  refine ⟨by decide, ?_, by decide, ?_⟩ <;> decide

/-- **C1 (amended).** Namespace round-trip: for every backend id `s` matching
`^[A-Za-z][A-Za-z0-9_-]{0,63}$` that moreover contains no `__` and does not
end in `_`, and every non-empty name `n`,
`parseNamespacedName (createNamespacedName s n) = some (s, n)`; and for every
such `s` (no extra condition needed) and non-empty URI `u` containing no
JavaScript line terminator,
`parseNamespacedUri (createNamespacedUri s u) = some (s, u)`. -/
theorem roundtrip_amended (s n u : String)
    (hid : matchesIdPattern s = true)
    (hsafe : idSafeForNames s = true)
    (hn : n.toList ≠ [])
    (hu : u.toList ≠ [])
    (hterm : u.toList.any isLineTerm = false) :
    parseNamespacedName (createNamespacedName s n) = some (s, n) ∧
    parseNamespacedUri (createNamespacedUri s u) = some (s, u) := by
  have hdata : (createNamespacedName s n).toList
      = s.toList ++ '_' :: '_' :: n.toList := by
    show (s ++ NAMESPACE_SEPARATOR ++ n).data = s.data ++ '_' :: '_' :: n.data
    rw [String.data_append, String.data_append, List.append_assoc]
    rfl
  have hsep : sepIndexL (s.toList ++ ['_']) = none := by
    unfold idSafeForNames at hsafe
    exact Option.isNone_iff_eq_none.mp hsafe
  have hsnil : s.toList ≠ [] := by
    intro hcontra
    unfold matchesIdPattern at hid
    rw [hcontra] at hid
    simp at hid
  constructor
  · -- name round-trip
    unfold parseNamespacedName parseNamespacedNameCore
    rw [hdata, sepIndexL_append_sep s.toList n.toList hsep]
    have htake : (s.toList ++ '_' :: '_' :: n.toList).take s.toList.length
        = s.toList := List.take_left s.toList _
    have hdrop : (s.toList ++ '_' :: '_' :: n.toList).drop (s.toList.length + 2)
        = n.toList := by
      have : s.toList ++ '_' :: '_' :: n.toList
          = (s.toList ++ ['_', '_']) ++ n.toList := by simp
      rw [this]
      have hlen : (s.toList ++ ['_', '_']).length = s.toList.length + 2 := by
        simp
      rw [← hlen]
      exact List.drop_left _ _
    simp only [htake, hdrop]
    rw [if_neg]
    · rfl
    · simp only [Bool.or_eq_true, List.isEmpty_iff, not_or]
      exact ⟨hsnil, hn⟩
  · -- URI round-trip
    obtain ⟨c, rest, hsl⟩ : ∃ c rest, s.toList = c :: rest := by
      cases hsl : s.toList with
      | nil => exact absurd hsl hsnil
      | cons c rest => exact ⟨c, rest, rfl⟩
    have hida : isRegexAlpha c = true ∧ rest.all isIdChar = true := by
      unfold matchesIdPattern at hid
      rw [hsl] at hid
      simp only [Bool.and_eq_true] at hid
      exact ⟨hid.1.1, hid.1.2⟩
    have hdata' : (createNamespacedUri s u).toList
        = c :: (rest ++ ':' :: '/' :: '/' :: u.toList) := by
      show (s ++ "://" ++ u).data = c :: (rest ++ ':' :: '/' :: '/' :: u.data)
      rw [String.data_append, String.data_append]
      show s.data ++ [':', '/', '/'] ++ u.data = _
      rw [show s.data = c :: rest from hsl]
      simp
    have hcolon : isIdChar ':' = false := by decide
    have hdw : (rest ++ ':' :: '/' :: '/' :: u.toList).dropWhile isIdChar
        = ':' :: '/' :: '/' :: u.toList :=
      dropWhile_append_stop isIdChar rest ':' _ hida.2 hcolon
    have htw : (rest ++ ':' :: '/' :: '/' :: u.toList).takeWhile isIdChar
        = rest :=
      takeWhile_append_stop isIdChar rest ':' _ hida.2 hcolon
    have hempty : u.toList.isEmpty = false := by
      cases h : u.toList with
      | nil => exact absurd h hu
      | cons a t => rfl
    have hcore : parseNamespacedUriCore (c :: (rest ++ ':' :: '/' :: '/' :: u.toList))
        = some (c :: rest, u.toList) := by
      simp only [parseNamespacedUriCore, hida.1, hdw, htw, hempty, hterm]
      rfl
    unfold parseNamespacedUri
    rw [hdata', hcore]
    show some (String.mk (c :: rest), String.mk u.toList) = some (s, u)
    rw [← hsl]
    rfl
/-- **C1 witness.** The amended round-trip evaluated at the backend id
`"fs"`, name `"read_file"`, URI `"file:///a"`. -/
theorem roundtrip_amended_witness :
    parseNamespacedName (createNamespacedName "fs" "read_file")
      = some ("fs", "read_file") ∧
    parseNamespacedUri (createNamespacedUri "fs" "file:///a")
      = some ("fs", "file:///a") :=
  roundtrip_amended "fs" "read_file" "file:///a"
    (by decide) (by decide) (by decide) (by decide) (by decide)

/-! ## Dynamic JSON values and the JSON-RPC envelope (src/adapters/base.ts)

Backend `params`/`result` bodies are dynamic JSON, modelled by a small
inductive.  The `jsonrpc : '2.0'` discriminator is carried by every message
in the source and is omitted from the embedding.  The `id` slot is `Json`
because JavaScript places no runtime constraint on it (the TypeScript
annotation `string | number` is erased). -/

inductive Json where
  | null
  | bool (b : Bool)
  | num (q : ℚ)
  | str (s : String)
  | arr (items : List Json)
  | obj (fields : List (String × Json))

/-- The `error` member of a JSON-RPC response. -/
structure JsonRpcError where
  code : ℤ
  message : String
  data : Option Json := none

/-- A JSON-RPC response (`JsonRpcResponse` in base.ts). -/
structure JsonRpcResponse where
  id : Json
  result : Option Json := none
  error : Option JsonRpcError := none

/-- A JSON-RPC request (`JsonRpcRequest` in base.ts). -/
structure JsonRpcRequest where
  id : Json
  method : String
  params : Option Json := none

/-! ## Circuit breaker (src/adapters/base.ts, Issue #8)

The breaker state `'closed' | 'open' | 'half-open'` together with the
statistics record.  `'open'` is rendered `opened` (`open` is a Lean
keyword). -/

inductive CircuitState where
  | closed
  | opened
  | halfOpen
deriving DecidableEq

/-- `circuitBreakerConfig` fields; `timeout` is the recovery timeout in
milliseconds. -/
structure CircuitBreakerConfig where
  failureThreshold : ℕ
  successThreshold : ℕ
  timeout : ℤ
  volumeThreshold : ℕ
deriving DecidableEq

/-- The hard-coded defaults of `circuitBreakerConfig` in base.ts (neither
transport subclass overrides them). -/
def circuitBreakerConfigDefault : CircuitBreakerConfig :=
  { failureThreshold := 5, successThreshold := 2,
    timeout := 30000, volumeThreshold := 10 }

/-- `circuitBreakerStats`; timestamps are `Date.now()` milliseconds. -/
structure CircuitBreakerStats where
  consecutiveFailures : ℕ
  consecutiveSuccesses : ℕ
  totalRequests : ℕ
  lastStateChange : ℤ
  lastOpenTime : ℤ
deriving DecidableEq

/-- Breaker state plus statistics, the mutable breaker fields of
`BaseAdapter`. -/
structure BreakerState where
  state : CircuitState
  stats : CircuitBreakerStats
deriving DecidableEq

/-- `BaseAdapter.isCircuitBreakerOpen`, as a pure step: returns the decision
together with the possibly-updated state (the method mutates the breaker when
the recovery timeout has elapsed, moving `open → half-open` and zeroing
`consecutiveSuccesses`). -/
def isCircuitBreakerOpen (cfg : CircuitBreakerConfig) (now : ℤ)
    (b : BreakerState) : Bool × BreakerState :=
  match b.state with
  | CircuitState.closed => (false, b)
  | CircuitState.opened =>
    if now - b.stats.lastStateChange ≥ cfg.timeout then
      (false,
       { b with state := CircuitState.halfOpen,
                stats := { b.stats with consecutiveSuccesses := 0 } })
    else (true, b)
  | CircuitState.halfOpen => (false, b)

/-- The local `stats` object built at the top of `recordSuccess`:
`totalRequests++`, `consecutiveFailures = 0`, `consecutiveSuccesses++`. -/
def bumpSuccessStats (s : CircuitBreakerStats) : CircuitBreakerStats :=
  { s with totalRequests := s.totalRequests + 1,
           consecutiveFailures := 0,
           consecutiveSuccesses := s.consecutiveSuccesses + 1 }

/-- The local `stats` object built at the top of `recordFailure`:
`totalRequests++`, `consecutiveFailures++`, `consecutiveSuccesses = 0`. -/
def bumpFailureStats (s : CircuitBreakerStats) : CircuitBreakerStats :=
  { s with totalRequests := s.totalRequests + 1,
           consecutiveFailures := s.consecutiveFailures + 1,
           consecutiveSuccesses := 0 }

/-- `BaseAdapter.recordSuccess`. -/
def recordSuccess (cfg : CircuitBreakerConfig) (now : ℤ)
    (b : BreakerState) : BreakerState :=
  if b.state = CircuitState.halfOpen ∧
      (bumpSuccessStats b.stats).consecutiveSuccesses ≥ cfg.successThreshold then
    { state := CircuitState.closed,
      stats := { bumpSuccessStats b.stats with lastStateChange := now } }
  else
    { b with stats := bumpSuccessStats b.stats }

/-- `BaseAdapter.recordFailure`.  The `open` transition additionally sets the
adapter health to `unhealthy` in the source; adapter health is modelled
separately (see the registry section). -/
def recordFailure (cfg : CircuitBreakerConfig) (now : ℤ)
    (b : BreakerState) : BreakerState :=
  if (bumpFailureStats b.stats).totalRequests ≥ cfg.volumeThreshold ∧
      (bumpFailureStats b.stats).consecutiveFailures ≥ cfg.failureThreshold then
    if b.state ≠ CircuitState.opened then
      { state := CircuitState.opened,
        stats := { bumpFailureStats b.stats with
                   lastStateChange := now, lastOpenTime := now } }
    else
      { b with stats := bumpFailureStats b.stats }
  else
    { b with stats := bumpFailureStats b.stats }

/-- The three primitive operations that ever touch the breaker fields in
base.ts: the `isCircuitBreakerOpen` check, `recordSuccess`, and
`recordFailure`. -/
inductive BreakerStep (cfg : CircuitBreakerConfig) :
    BreakerState → BreakerState → Prop where
  | check (now : ℤ) (b : BreakerState) :
      BreakerStep cfg b (isCircuitBreakerOpen cfg now b).2
  | success (now : ℤ) (b : BreakerState) :
      BreakerStep cfg b (recordSuccess cfg now b)
  | failure (now : ℤ) (b : BreakerState) :
      BreakerStep cfg b (recordFailure cfg now b)

/-- `recordFailure` always increments `totalRequests` and
`consecutiveFailures` and zeroes `consecutiveSuccesses`, in every branch. -/
lemma recordFailure_stats (cfg : CircuitBreakerConfig) (now : ℤ)
    (b : BreakerState) :
    (recordFailure cfg now b).stats.totalRequests = b.stats.totalRequests + 1 ∧
    (recordFailure cfg now b).stats.consecutiveFailures
      = b.stats.consecutiveFailures + 1 ∧
    (recordFailure cfg now b).stats.consecutiveSuccesses = 0 := by
  unfold recordFailure
  split
  · split <;> exact ⟨rfl, rfl, rfl⟩
  · exact ⟨rfl, rfl, rfl⟩

/-- **C6.** Volume gate: no primitive breaker operation moves the breaker
into state `open` from a non-`open` state unless, at the moment of the
transition, `totalRequests ≥ volumeThreshold` and
`consecutiveFailures ≥ failureThreshold` both hold. -/
theorem breaker_opens_only_after_volume (cfg : CircuitBreakerConfig)
    (b b' : BreakerState) (hstep : BreakerStep cfg b b')
    (hpre : b.state ≠ CircuitState.opened)
    (hpost : b'.state = CircuitState.opened) :
    b'.stats.totalRequests ≥ cfg.volumeThreshold ∧
    b'.stats.consecutiveFailures ≥ cfg.failureThreshold := by
  cases hstep with
  | check now b =>
    exfalso
    obtain ⟨bs, bst⟩ := b
    cases bs with
    | closed => simp [isCircuitBreakerOpen] at hpost
    | opened => exact hpre rfl
    | halfOpen => simp [isCircuitBreakerOpen] at hpost
  | success now b =>
    exfalso
    unfold recordSuccess at hpost
    split at hpost
    · simp at hpost
    · exact hpre hpost
  | failure now b =>
    rcases recordFailure_stats cfg now b with ⟨ht, hf, _⟩
    by_cases hvol : (bumpFailureStats b.stats).totalRequests ≥ cfg.volumeThreshold ∧
        (bumpFailureStats b.stats).consecutiveFailures ≥ cfg.failureThreshold
    · refine ⟨?_, ?_⟩
      · rw [ht]; exact hvol.1
      · rw [hf]; exact hvol.2
    · exfalso
      unfold recordFailure at hpost
      rw [if_neg hvol] at hpost
      exact hpre hpost

/-- **C6 witness.** A closed breaker at 4 consecutive failures and 9 total
requests receives a fifth consecutive failure (the tenth request) and opens,
with both thresholds met. -/
def breakerVolumeEx : BreakerState :=
  { state := CircuitState.closed,
    stats := { consecutiveFailures := 4, consecutiveSuccesses := 0,
               totalRequests := 9, lastStateChange := 0, lastOpenTime := 0 } }

theorem breaker_opens_only_after_volume_witness :
    (recordFailure circuitBreakerConfigDefault 5 breakerVolumeEx).stats.totalRequests
      ≥ circuitBreakerConfigDefault.volumeThreshold ∧
    (recordFailure circuitBreakerConfigDefault 5 breakerVolumeEx).stats.consecutiveFailures
      ≥ circuitBreakerConfigDefault.failureThreshold :=
  breaker_opens_only_after_volume circuitBreakerConfigDefault breakerVolumeEx _
    (BreakerStep.failure 5 breakerVolumeEx) (by decide) (by decide)

/-- A reachable half-open breaker state: the breaker opened (5 consecutive
failures over ≥ 10 requests), the recovery timeout elapsed, the state moved
to half-open, and one probe request succeeded (zeroing
`consecutiveFailures` and making `consecutiveSuccesses = 1`, below the
success threshold of 2). -/
def halfOpenAfterSuccessEx : BreakerState :=
  { state := CircuitState.halfOpen,
    stats := { consecutiveFailures := 0, consecutiveSuccesses := 1,
               totalRequests := 12, lastStateChange := 0, lastOpenTime := 0 } }

/-- **C5 counterexample.** In state `half-open`, recording a single failure
does *not* always transition back to `open`: from `halfOpenAfterSuccessEx`
(reachable, see its docstring), `recordFailure` leaves the breaker in
`half-open`, because the new `consecutiveFailures = 1` is below the failure
threshold of 5. -/
theorem halfopen_relapse_counterexample :
    (recordFailure circuitBreakerConfigDefault 40000 halfOpenAfterSuccessEx).state
      = CircuitState.halfOpen := by decide

/-- **C5 (amended).** In state `half-open`, recording a failure transitions
back to `open` exactly when the incremented counters meet the same gate as in
`closed`: `totalRequests + 1 ≥ volumeThreshold` and
`consecutiveFailures + 1 ≥ failureThreshold`.  (Immediately after the
`open → half-open` move this holds, since `consecutiveFailures` is not reset
by that move; after any success in half-open it fails.) -/
theorem halfopen_relapse_amended (cfg : CircuitBreakerConfig) (now : ℤ)
    (b : BreakerState) (h : b.state = CircuitState.halfOpen) :
    (recordFailure cfg now b).state = CircuitState.opened ↔
      (b.stats.totalRequests + 1 ≥ cfg.volumeThreshold ∧
       b.stats.consecutiveFailures + 1 ≥ cfg.failureThreshold) := by
  have hne : b.state ≠ CircuitState.opened := by rw [h]; decide
  unfold recordFailure
  by_cases hvol : (bumpFailureStats b.stats).totalRequests ≥ cfg.volumeThreshold ∧
      (bumpFailureStats b.stats).consecutiveFailures ≥ cfg.failureThreshold
  · rw [if_pos hvol, if_pos hne]
    exact ⟨fun _ => hvol, fun _ => rfl⟩
  · rw [if_neg hvol]
    exact ⟨fun hopen => absurd hopen hne, fun hv => absurd hv hvol⟩

/-- **C5 amended witness.** A half-open breaker whose failure streak is
intact (5 consecutive failures, 11 total requests) reopens on the next
failure. -/
def halfOpenStreakEx : BreakerState :=
  { state := CircuitState.halfOpen,
    stats := { consecutiveFailures := 5, consecutiveSuccesses := 0,
               totalRequests := 11, lastStateChange := 0, lastOpenTime := 0 } }

theorem halfopen_relapse_amended_witness :
    (recordFailure circuitBreakerConfigDefault 40000 halfOpenStreakEx).state
      = CircuitState.opened :=
  (halfopen_relapse_amended circuitBreakerConfigDefault 40000 halfOpenStreakEx
    rfl).mpr (by decide)

/-! ## The synchronous prefix of `BaseAdapter.sendRequest`

`sendRequest` first consults the circuit breaker; when the circuit rejects,
it calls `recordFailure`, allocates an id via `generateRequestId`
(`nextRequestId++`) for the synthetic error object, and returns it without
touching the transport.  Otherwise it allocates the request id, registers the
pending entry and hands the framed request to `sendRaw`.  The model captures
exactly this synchronous prefix; the asynchronous continuations (timeout,
reply, send failure) are not needed by the claims below. -/

/-- The breaker-relevant adapter fields touched by `sendRequest`'s
synchronous prefix. -/
structure AdapterReqState where
  breaker : BreakerState
  nextRequestId : ℕ
  pendingIds : List ℕ
deriving DecidableEq

/-- What the synchronous prefix of `sendRequest` does externally: either a
synthetic rejection (no `sendRaw`, nothing pending) or a transmission of one
framed request via `sendRaw` under a fresh id. -/
inductive SendAction where
  | rejectOpen (resp : JsonRpcResponse)
  | transmit (id : ℕ) (req : JsonRpcRequest)

/-- The synchronous prefix of `BaseAdapter.sendRequest`. -/
def sendRequestStep (cfg : CircuitBreakerConfig) (now : ℤ) (method : String)
    (params : Option Json) (st : AdapterReqState) :
    AdapterReqState × SendAction :=
  if (isCircuitBreakerOpen cfg now st.breaker).1 then
    ⟨{ st with breaker := recordFailure cfg now (isCircuitBreakerOpen cfg now st.breaker).2,
               nextRequestId := st.nextRequestId + 1 },
     SendAction.rejectOpen
       { id := Json.num (st.nextRequestId : ℚ),
         error := some { code := -32603, message := "Circuit breaker is open" } }⟩
  else
    ⟨{ st with breaker := (isCircuitBreakerOpen cfg now st.breaker).2,
               nextRequestId := st.nextRequestId + 1,
               pendingIds := st.pendingIds ++ [st.nextRequestId] },
     SendAction.transmit st.nextRequestId
       { id := Json.num (st.nextRequestId : ℚ), method := method, params := params }⟩

/-- When the breaker is in state `open` and the recovery timeout has not yet
elapsed, the `isCircuitBreakerOpen` check answers `true` without changing the
state. -/
lemma isOpen_of_open_recent (cfg : CircuitBreakerConfig) (now : ℤ)
    (b : BreakerState) (hopen : b.state = CircuitState.opened)
    (helapsed : now - b.stats.lastStateChange < cfg.timeout) :
    isCircuitBreakerOpen cfg now b = (true, b) := by
  obtain ⟨bs, bst⟩ := b
  cases bs with
  | closed => cases hopen
  | opened =>
    unfold isCircuitBreakerOpen
    simp only []
    rw [if_neg (not_le.mpr helapsed)]
  | halfOpen => cases hopen

/-- The full shape of `sendRequestStep` on a recently opened circuit. -/
lemma sendRequestStep_open_eq (cfg : CircuitBreakerConfig)
    (now : ℤ) (method : String) (params : Option Json) (st : AdapterReqState)
    (hopen : st.breaker.state = CircuitState.opened)
    (helapsed : now - st.breaker.stats.lastStateChange < cfg.timeout) :
    sendRequestStep cfg now method params st
      = ⟨{ st with breaker := recordFailure cfg now st.breaker,
                   nextRequestId := st.nextRequestId + 1 },
         SendAction.rejectOpen
           { id := Json.num (st.nextRequestId : ℚ),
             error := some { code := -32603,
                             message := "Circuit breaker is open" } }⟩ := by
  unfold sendRequestStep
  rw [isOpen_of_open_recent cfg now st.breaker hopen helapsed]
  rfl

/-- **C4.** Open-circuit rejection is synthetic: while the breaker is `open`
and less than the recovery timeout has elapsed since the last state change,
`sendRequest` returns (as `SendAction.rejectOpen`, i.e. without invoking
`sendRaw`) a JSON-RPC error response with code −32603, and the
pending-request table is left untouched. -/
theorem circuit_open_rejects_synthetically (cfg : CircuitBreakerConfig)
    (now : ℤ) (method : String) (params : Option Json) (st : AdapterReqState)
    (hopen : st.breaker.state = CircuitState.opened)
    (helapsed : now - st.breaker.stats.lastStateChange < cfg.timeout) :
    (sendRequestStep cfg now method params st).2
      = SendAction.rejectOpen
          { id := Json.num (st.nextRequestId : ℚ),
            error := some { code := -32603, message := "Circuit breaker is open" } } ∧
    (sendRequestStep cfg now method params st).1.pendingIds = st.pendingIds := by
  rw [sendRequestStep_open_eq cfg now method params st hopen helapsed]
  exact ⟨rfl, rfl⟩

/-- **C4 witness.** A breaker opened at t = 1000 ms rejects a `tools/call` at
t = 2000 ms (recovery timeout 30 s) synthetically. -/
def openAdapterEx : AdapterReqState :=
  { breaker :=
      { state := CircuitState.opened,
        stats := { consecutiveFailures := 5, consecutiveSuccesses := 0,
                   totalRequests := 10, lastStateChange := 1000,
                   lastOpenTime := 1000 } },
    nextRequestId := 7,
    pendingIds := [3, 5] }

theorem circuit_open_rejects_synthetically_witness :
    (sendRequestStep circuitBreakerConfigDefault 2000 "tools/call" none openAdapterEx).2
      = SendAction.rejectOpen
          { id := Json.num (7 : ℚ),
            error := some { code := -32603, message := "Circuit breaker is open" } } ∧
    (sendRequestStep circuitBreakerConfigDefault 2000 "tools/call" none openAdapterEx).1.pendingIds
      = [3, 5] :=
  circuit_open_rejects_synthetically circuitBreakerConfigDefault 2000
    "tools/call" none openAdapterEx rfl (by decide)

/-- **C10.** A request rejected while the breaker is open still mutates the
adapter: `recordFailure` runs (`totalRequests` and `consecutiveFailures` are
incremented, `consecutiveSuccesses` is zeroed) and a fresh id is consumed
from the monotonic request-id counter, even though nothing reaches the
transport. -/
theorem open_rejection_mutates_state (cfg : CircuitBreakerConfig)
    (now : ℤ) (method : String) (params : Option Json) (st : AdapterReqState)
    (hopen : st.breaker.state = CircuitState.opened)
    (helapsed : now - st.breaker.stats.lastStateChange < cfg.timeout) :
    (sendRequestStep cfg now method params st).1.breaker.stats.totalRequests
      = st.breaker.stats.totalRequests + 1 ∧
    (sendRequestStep cfg now method params st).1.breaker.stats.consecutiveFailures
      = st.breaker.stats.consecutiveFailures + 1 ∧
    (sendRequestStep cfg now method params st).1.breaker.stats.consecutiveSuccesses
      = 0 ∧
    (sendRequestStep cfg now method params st).1.nextRequestId
      = st.nextRequestId + 1 := by
  rw [sendRequestStep_open_eq cfg now method params st hopen helapsed]
  rcases recordFailure_stats cfg now st.breaker with ⟨ht, hf, hs⟩
  exact ⟨ht, hf, hs, rfl⟩

/-- **C10 witness.** The rejected call of `openAdapterEx` advances
`totalRequests` 10 → 11, `consecutiveFailures` 5 → 6, keeps
`consecutiveSuccesses` at 0 and advances the id counter 7 → 8. -/
theorem open_rejection_mutates_state_witness :
    (sendRequestStep circuitBreakerConfigDefault 2000 "ping" none openAdapterEx).1.breaker.stats.totalRequests
      = 11 ∧
    (sendRequestStep circuitBreakerConfigDefault 2000 "ping" none openAdapterEx).1.breaker.stats.consecutiveFailures
      = 6 ∧
    (sendRequestStep circuitBreakerConfigDefault 2000 "ping" none openAdapterEx).1.breaker.stats.consecutiveSuccesses
      = 0 ∧
    (sendRequestStep circuitBreakerConfigDefault 2000 "ping" none openAdapterEx).1.nextRequestId
      = 8 :=
  open_rejection_mutates_state circuitBreakerConfigDefault 2000 "ping" none
    openAdapterEx rfl (by decide)

/-! ## Retry supervisor backoff (src/adapters/base.ts, Issue #3)

`getBackoffDelay` computes
`Math.round(min(baseDelay · 2^count + Math.random() · (baseDelay ·
jitterFraction), maxDelay))`; `handleCrash` schedules a restart after that
delay only while `retryState.count < retryConfig.maxRetries`, using the
pre-increment count (so the k-th restart attempt, counting from 0, uses
`count = k`).  `Math.random()` is modelled by a parameter `rand ∈ [0, 1)`.
Delays are exact rationals; `Math.round` rounds half up. -/

/-- `retryConfig` as hard-coded in base.ts (no subclass overrides it). -/
structure RetryConfig where
  enabled : Bool
  maxRetries : ℕ
  baseDelay : ℚ
  maxDelay : ℚ
  jitterFraction : ℚ

/-- The defaults: enabled, 3 retries, base 1 s, max 30 s, jitter 10 %. -/
def retryConfigDefault : RetryConfig :=
  { enabled := true, maxRetries := 3, baseDelay := 1000,
    maxDelay := 30000, jitterFraction := 1/10 }

/-- JavaScript `Math.round` (round half towards +∞). -/
def jsRound (q : ℚ) : ℤ := ⌊q + 1/2⌋

/-- `BaseAdapter.getBackoffDelay`, with `Math.random()` passed in as
`rand`. -/
def getBackoffDelay (cfg : RetryConfig) (count : ℕ) (rand : ℚ) : ℤ :=
  if cfg.enabled = false then 0
  else
    jsRound (min (cfg.baseDelay * 2 ^ count + rand * (cfg.baseDelay * cfg.jitterFraction))
                 cfg.maxDelay)

/-- The delay `BaseAdapter.handleCrash` schedules before the restart attempt
with current retry count `count`; `none` when the retry budget is exhausted
(the adapter instead emits the terminal `unhealthy` event). -/
def handleCrashDelay (cfg : RetryConfig) (count : ℕ) (rand : ℚ) : Option ℤ :=
  if count ≥ cfg.maxRetries then none
  else some (getBackoffDelay cfg count rand)

/-- **C7.** Backoff formula: for every retry attempt count `k` for which a
restart is scheduled (`k < maxRetries = 3`) and every `rand ∈ [0, 1)`, the
scheduled delay equals `min(maxDelay, baseDelay · 2^k) + j` for some jitter
`j` with `0 ≤ j ≤ jitterFraction · baseDelay`, under the defaults
(base 1 s, max 30 s, jitter 10 %). -/
theorem backoff_formula (k : ℕ) (rand : ℚ)
    (h0 : 0 ≤ rand) (h1 : rand < 1) (hk : k < retryConfigDefault.maxRetries) :
    handleCrashDelay retryConfigDefault k rand
      = some (getBackoffDelay retryConfigDefault k rand) ∧
    0 ≤ ((getBackoffDelay retryConfigDefault k rand : ℚ)
        - min retryConfigDefault.maxDelay (retryConfigDefault.baseDelay * 2 ^ k)) ∧
    ((getBackoffDelay retryConfigDefault k rand : ℚ)
        - min retryConfigDefault.maxDelay (retryConfigDefault.baseDelay * 2 ^ k))
      ≤ retryConfigDefault.jitterFraction * retryConfigDefault.baseDelay := by
  have hk2 : k ≤ 2 := Nat.lt_succ_iff.mp hk
  have hpow : (2 : ℚ) ^ k ≤ 4 := by
    calc (2 : ℚ) ^ k ≤ 2 ^ 2 := by
          exact pow_le_pow_right₀ (by norm_num) hk2
    _ = 4 := by norm_num
  have hpow0 : (0 : ℚ) < 2 ^ k := by positivity
  have hjit0 : 0 ≤ rand * 100 := mul_nonneg h0 (by norm_num)
  have hjit1 : rand * 100 < 100 := by nlinarith
  have hb4 : (1000 : ℚ) * 2 ^ k ≤ 4000 := by nlinarith
  have hexp : getBackoffDelay retryConfigDefault k rand
      = jsRound (min ((1000 : ℚ) * 2 ^ k + rand * (1000 * (1/10))) 30000) := rfl
  have h100 : rand * ((1000 : ℚ) * (1/10)) = rand * 100 := by ring
  have htot : (1000 : ℚ) * 2 ^ k + rand * 100 ≤ 30000 := by nlinarith
  have hdelay : getBackoffDelay retryConfigDefault k rand
      = (1000 * 2 ^ k : ℤ) + ⌊rand * 100 + 1/2⌋ := by
    rw [hexp, h100, min_eq_left htot]
    unfold jsRound
    have : (1000 : ℚ) * 2 ^ k + rand * 100 + 1/2
        = (rand * 100 + 1/2) + ((1000 * 2 ^ k : ℤ) : ℚ) := by push_cast; ring
    rw [this, Int.floor_add_int, add_comm]
  have hfl0 : 0 ≤ ⌊rand * 100 + 1/2⌋ := Int.floor_nonneg.mpr (by linarith)
  have hfl1 : ⌊rand * 100 + 1/2⌋ ≤ 100 := by
    have : ⌊rand * 100 + 1/2⌋ < 101 := Int.floor_lt.mpr (by push_cast; linarith)
    omega
  have hmin : min retryConfigDefault.maxDelay (retryConfigDefault.baseDelay * 2 ^ k)
      = (1000 : ℚ) * 2 ^ k := by
    show min (30000 : ℚ) (1000 * 2 ^ k) = 1000 * 2 ^ k
    exact min_eq_right (by linarith)
  refine ⟨?_, ?_, ?_⟩
  · unfold handleCrashDelay
    rw [if_neg (by omega)]
  · rw [hmin, hdelay]
    have h0q : (0 : ℚ) ≤ ((⌊rand * 100 + 1/2⌋ : ℤ) : ℚ) := by exact_mod_cast hfl0
    push_cast
    linarith
  · rw [hmin, hdelay]
    show ((((1000 * 2 ^ k : ℤ) + ⌊rand * 100 + 1/2⌋ : ℤ) : ℚ) - 1000 * 2 ^ k)
        ≤ (1/10) * 1000
    push_cast
    have : ((⌊rand * 100 + 1/2⌋ : ℤ) : ℚ) ≤ 100 := by exact_mod_cast hfl1
    linarith

/-- **C7 witness.** The backoff formula at retry count 1 with
`Math.random() = 1/4`: scheduled delay 2025 ms = min(30000, 2000) + 25. -/
theorem backoff_formula_witness :
    handleCrashDelay retryConfigDefault 1 (1/4)
      = some (getBackoffDelay retryConfigDefault 1 (1/4)) ∧
    0 ≤ ((getBackoffDelay retryConfigDefault 1 (1/4) : ℚ)
        - min retryConfigDefault.maxDelay (retryConfigDefault.baseDelay * 2 ^ 1)) ∧
    ((getBackoffDelay retryConfigDefault 1 (1/4) : ℚ)
        - min retryConfigDefault.maxDelay (retryConfigDefault.baseDelay * 2 ^ 1))
      ≤ retryConfigDefault.jitterFraction * retryConfigDefault.baseDelay :=
  backoff_formula 1 (1/4) (by norm_num) (by norm_num) (by decide)

/-! ## Session sweeping (src/core/gateway.ts)

`startSessionCleanup` installs `cleanupStaleSessions` on a
`setInterval(min(sessionTimeout / 2, 60000))`; a `setInterval` started at
`start` fires at `start + (n+1)·interval` for `n = 0, 1, …`.  The sweep
removes exactly the sessions with `now − lastActivity > sessionTimeout`.
Times are milliseconds as exact rationals. -/

/-- A gateway client session (the `clientInfo` field plays no role here). -/
structure Session where
  id : String
  createdAt : ℚ
  lastActivity : ℚ
deriving DecidableEq

/-- `cleanupInterval = Math.min(sessionTimeout / 2, 60000)` from
`Gateway.startSessionCleanup`. -/
def cleanupIntervalMs (sessionTimeout : ℚ) : ℚ :=
  min (sessionTimeout / 2) 60000

/-- `Gateway.cleanupStaleSessions`: keep exactly the sessions whose
inactivity `now − lastActivity` does not exceed `sessionTimeout`. -/
def cleanupStaleSessions (sessionTimeout now : ℚ)
    (sessions : List Session) : List Session :=
  sessions.filter (fun s => decide (now - s.lastActivity ≤ sessionTimeout))

/-- The time of the `n`-th firing (from 0) of a `setInterval` installed at
`start`. -/
def sweepTime (start interval : ℚ) (n : ℕ) : ℚ :=
  start + (n + 1) * interval

/-- Index of the first sweep firing strictly after
`lastActivity + sessionTimeout` (the sweep that evicts the session). -/
def firstEvictingSweep (sessionTimeout start lastActivity : ℚ) : ℕ :=
  (⌊(lastActivity + sessionTimeout - start) / cleanupIntervalMs sessionTimeout⌋).toNat

/-- **C8.** Session eviction window: a session last touched at
`s.lastActivity` is (a) never removed by a sweep at or before
`lastActivity + sessionTimeout`, and (b) removed by the sweep
`firstEvictingSweep`, which fires at or before
`lastActivity + sessionTimeout + sweepInterval`, where
`sweepInterval = min(sessionTimeout / 2, 60 s)`.  (Hypotheses: positive
timeout; the sweeper was installed no later than the session's last
activity; the session is not touched again.) -/
theorem session_eviction_window (sessionTimeout start : ℚ)
    (sessions : List Session) (s : Session)
    (htimeout : 0 < sessionTimeout) (hmem : s ∈ sessions)
    (hstart : start ≤ s.lastActivity) :
    (∀ now : ℚ, now ≤ s.lastActivity + sessionTimeout →
      s ∈ cleanupStaleSessions sessionTimeout now sessions) ∧
    (sweepTime start (cleanupIntervalMs sessionTimeout)
        (firstEvictingSweep sessionTimeout start s.lastActivity)
      ≤ s.lastActivity + sessionTimeout + cleanupIntervalMs sessionTimeout ∧
     s ∉ cleanupStaleSessions sessionTimeout
        (sweepTime start (cleanupIntervalMs sessionTimeout)
          (firstEvictingSweep sessionTimeout start s.lastActivity)) sessions) := by
  set I := cleanupIntervalMs sessionTimeout with hIdef
  have hI : 0 < I := by
    rw [hIdef]
    unfold cleanupIntervalMs
    exact lt_min (by linarith) (by norm_num)
  constructor
  · intro now hnow
    unfold cleanupStaleSessions
    rw [List.mem_filter]
    exact ⟨hmem, by rw [decide_eq_true_eq]; linarith⟩
  · set d : ℚ := s.lastActivity + sessionTimeout - start with hd
    have hd0 : 0 ≤ d := by rw [hd]; linarith
    set k : ℤ := ⌊d / I⌋ with hkdef
    have hk0 : 0 ≤ k := Int.floor_nonneg.mpr (div_nonneg hd0 hI.le)
    have hkcast : ((firstEvictingSweep sessionTimeout start s.lastActivity : ℕ) : ℚ)
        = (k : ℚ) := by
      unfold firstEvictingSweep
      rw [← hIdef, ← hd, ← hkdef]
      exact_mod_cast congrArg (Int.cast : ℤ → ℚ) (Int.toNat_of_nonneg hk0)
    have hfl1 : (k : ℚ) * I ≤ d := by
      have hle := Int.floor_le (d / I)
      rw [← hkdef] at hle
      calc (k : ℚ) * I ≤ (d / I) * I := mul_le_mul_of_nonneg_right hle hI.le
      _ = d := div_mul_cancel₀ d (ne_of_gt hI)
    have hfl2 : d < ((k : ℚ) + 1) * I := by
      have hlt := Int.lt_floor_add_one (d / I)
      rw [← hkdef] at hlt
      calc d = (d / I) * I := (div_mul_cancel₀ d (ne_of_gt hI)).symm
      _ < ((k : ℚ) + 1) * I := mul_lt_mul_of_pos_right hlt hI
    have hT : sweepTime start I (firstEvictingSweep sessionTimeout start s.lastActivity)
        = start + ((k : ℚ) + 1) * I := by
      unfold sweepTime
      rw [hkcast]
    have hexpand : ((k : ℚ) + 1) * I = (k : ℚ) * I + I := by ring
    constructor
    · rw [hT]
      have hgoal : s.lastActivity + sessionTimeout + I = start + d + I := by
        rw [hd]; ring
      linarith
    · unfold cleanupStaleSessions
      rw [List.mem_filter]
      rintro ⟨-, habs⟩
      rw [decide_eq_true_eq] at habs
      rw [hT] at habs
      have hgoal : s.lastActivity + sessionTimeout = start + d := by
        rw [hd]; ring
      linarith

/-- **C8 witness.** With `sessionTimeout = 120 s` (sweep interval 60 s), a
session last touched at t = 0 survives the sweep at t = 100 s and is gone by
the sweep at t = 180 s ≤ 0 + 120 s + 60 s. -/
def sessionEx : Session :=
  { id := "s1", createdAt := 0, lastActivity := 0 }

theorem session_eviction_window_witness :
    sessionEx ∈ cleanupStaleSessions 120000 100000 [sessionEx] ∧
    sweepTime 0 (cleanupIntervalMs 120000)
        (firstEvictingSweep 120000 0 sessionEx.lastActivity)
      ≤ sessionEx.lastActivity + 120000 + cleanupIntervalMs 120000 ∧
    sessionEx ∉ cleanupStaleSessions 120000
        (sweepTime 0 (cleanupIntervalMs 120000)
          (firstEvictingSweep 120000 0 sessionEx.lastActivity)) [sessionEx] := by
  have h := session_eviction_window 120000 0 [sessionEx] sessionEx
    (by norm_num) (by simp) (by norm_num [sessionEx])
  exact ⟨h.1 100000 (by norm_num [sessionEx]), h.2.1, h.2.2⟩

/-! ## Capability records and the adapter registry
(src/adapters/base.ts, src/core/registry.ts)

An adapter is modelled by its observable face: `isConnected()`, current
health, cached capabilities, the outcome of `start()`, and its `sendRequest`
behaviour (as a function from method and params to the response the returned
promise resolves with, or the rejection message).  The registry is the
adapter map in insertion order; `registerServer` throws on duplicate ids, so
insertion order is registration order. -/

/-- `MCPTool` from base.ts; the input schema is opaque JSON. -/
structure MCPTool where
  name : String
  description : Option String := none
  inputSchema : Json

/-- `MCPResource` from base.ts. -/
structure MCPResource where
  uri : String
  name : String
  description : Option String := none
  mimeType : Option String := none

/-- One entry of a prompt's argument list. -/
structure PromptArgument where
  name : String
  description : Option String := none
  required : Option Bool := none

/-- `MCPPrompt` from base.ts. -/
structure MCPPrompt where
  name : String
  description : Option String := none
  arguments : Option (List PromptArgument) := none

/-- `serverInfo` of a backend, and the gateway's own name/version. -/
structure ServerInfo where
  name : String
  version : String

/-- `ServerCapabilities` from base.ts: the capability cache filled by the
handshake; each group is `undefined` until (and unless) fetched. -/
structure ServerCapabilities where
  tools : Option (List MCPTool) := none
  resources : Option (List MCPResource) := none
  prompts : Option (List MCPPrompt) := none
  serverInfo : Option ServerInfo := none

/-- `AdapterHealth` from base.ts. -/
inductive AdapterHealth where
  | Healthy
  | Unhealthy
  | Starting
  | Stopped
deriving DecidableEq

/-- The observable face of a live adapter: `getHealth()`,
`getCapabilities()`, and `sendRequest` as a function of method and params
(`Except.error` models a rejected promise). -/
structure AdapterView where
  health : AdapterHealth
  capabilities : Option ServerCapabilities
  respond : String → Option Json → Except String JsonRpcResponse

/-- A registered adapter: `isConnected()`, the current view, and the outcome
of `start()` (the post-start view, or the thrown error). -/
structure AdapterModel where
  connected : Bool
  view : AdapterView
  startResult : Except String AdapterView

/-- The registry's `Map<string, BaseAdapter>` in insertion order. -/
abbrev Registry := List (String × AdapterModel)

/-- `Registry.getServerIds`. -/
def getServerIds (reg : Registry) : List String :=
  reg.map (fun p => p.1)

/-- `Registry.getAdapterEnsureStarted`: throws when the id is unknown;
`start()`s the adapter first when it is not connected (a start failure
propagates); otherwise returns the adapter as is. -/
def getAdapterEnsureStarted (reg : Registry) (serverId : String) :
    Except String AdapterView :=
  match reg.lookup serverId with
  | none => Except.error ("Server " ++ serverId ++ " not found")
  | some a => if a.connected then Except.ok a.view else a.startResult

/-- The result record of `Registry.getMergedCapabilities`. -/
structure MergedCapabilities where
  tools : List (String × MCPTool)
  resources : List (String × MCPResource)
  prompts : List (String × MCPPrompt)

/-- `Registry.getMergedCapabilities`: walk the adapter map in insertion
order; skip adapters that are not healthy or have no capability cache; push
each cached entry annotated with its server id.  (A cached group that is
`undefined` contributes nothing: `Option.getD []`.) -/
def getMergedCapabilities : Registry → MergedCapabilities
  | [] => { tools := [], resources := [], prompts := [] }
  | (serverId, a) :: rest =>
    let m := getMergedCapabilities rest
    if a.view.health = AdapterHealth.Healthy then
      match a.view.capabilities with
      | none => m
      | some caps =>
        { tools := (caps.tools.getD []).map (fun t => (serverId, t)) ++ m.tools,
          resources := (caps.resources.getD []).map (fun r => (serverId, r)) ++ m.resources,
          prompts := (caps.prompts.getD []).map (fun p => (serverId, p)) ++ m.prompts }
    else m

/-- The cached tools of an adapter view (empty when there is no cache or the
group was never fetched). -/
def cachedTools (v : AdapterView) : List MCPTool :=
  (v.capabilities.map (fun c => c.tools.getD [])).getD []

/-- The cached resources of an adapter view. -/
def cachedResources (v : AdapterView) : List MCPResource :=
  (v.capabilities.map (fun c => c.resources.getD [])).getD []

/-- The cached prompts of an adapter view. -/
def cachedPrompts (v : AdapterView) : List MCPPrompt :=
  (v.capabilities.map (fun c => c.prompts.getD [])).getD []

/-- **C3.** Capability-merge exactness and order: for every registry state,
`getMergedCapabilities` returns exactly the cached tool/resource/prompt
entries of the adapters whose health is `healthy` at call time, each
annotated with its origin backend id, concatenated across backends in
registration order, each backend's block in its own cached order.  Entries
of stopped, starting or unhealthy adapters never appear (they are removed by
the filter on the right-hand side). -/
theorem merged_capabilities_exact (reg : Registry) :
    getMergedCapabilities reg =
      { tools :=
          (reg.filter (fun p => decide (p.2.view.health = AdapterHealth.Healthy))).flatMap
            (fun p => (cachedTools p.2.view).map (fun t => (p.1, t))),
        resources :=
          (reg.filter (fun p => decide (p.2.view.health = AdapterHealth.Healthy))).flatMap
            (fun p => (cachedResources p.2.view).map (fun r => (p.1, r))),
        prompts :=
          (reg.filter (fun p => decide (p.2.view.health = AdapterHealth.Healthy))).flatMap
            (fun p => (cachedPrompts p.2.view).map (fun q => (p.1, q))) } := by
  induction reg with
  | nil => rfl
  | cons hd rest ih =>
    obtain ⟨serverId, a⟩ := hd
    by_cases hh : a.view.health = AdapterHealth.Healthy
    · cases hcaps : a.view.capabilities with
      | none =>
        simp only [getMergedCapabilities, hh, if_pos, hcaps, ih, List.filter_cons,
          decide_eq_true_eq, cachedTools, cachedResources, cachedPrompts,
          List.flatMap_cons, Option.map_none', Option.getD_none, List.map_nil,
          List.nil_append, if_true]
      | some caps =>
        simp only [getMergedCapabilities, hh, hcaps, ih, List.filter_cons,
          decide_eq_true_eq, cachedTools, cachedResources, cachedPrompts,
          List.flatMap_cons, Option.map_some', Option.getD_some, if_true]
    · simp only [getMergedCapabilities, hh, if_false, ih, List.filter_cons,
        decide_eq_true_eq, if_neg hh]

/-! ## Request routing (src/core/router.ts) and the gateway dispatch
(src/core/gateway.ts)

`routeToolCall` / `routeResourceRead` / `routePromptGet` parse the
namespaced key, fetch the adapter (lazy-starting), gate on health, and
forward via `callTool` / `readResource` / `getPrompt`, which are
`sendRequest('tools/call', { name, arguments })` etc.  Error messages follow
the source but drop the quote characters around interpolated values. -/

/-- An error reply `{ jsonrpc, id, error: { code, message } }`. -/
def mkErrorResponse (id : Json) (code : ℤ) (message : String) : JsonRpcResponse :=
  { id := id, error := some { code := code, message := message } }

/-- `Router.routeToolCall`.  The `catch` of the source maps both a
`getAdapterEnsureStarted` throw and a `callTool` rejection to a −32000
reply carrying the error message. -/
def routeToolCall (reg : Registry) (namespacedName : String) (args : Json) :
    JsonRpcResponse :=
  match parseNamespacedName namespacedName with
  | none =>
    mkErrorResponse (Json.num 0) (-32602)
      ("Invalid tool name format: " ++ namespacedName)
  | some (serverId, originalName) =>
    match getAdapterEnsureStarted reg serverId with
    | Except.error msg => mkErrorResponse (Json.num 0) (-32000) msg
    | Except.ok a =>
      if a.health = AdapterHealth.Healthy then
        match a.respond "tools/call"
            (some (Json.obj [("name", Json.str originalName),
                             ("arguments", args)])) with
        | Except.ok resp => resp
        | Except.error msg => mkErrorResponse (Json.num 0) (-32000) msg
      else
        mkErrorResponse (Json.num 0) (-32000)
          ("Server " ++ serverId ++ " is not healthy")

/-- `Router.routeResourceRead`. -/
def routeResourceRead (reg : Registry) (namespacedUri : String) :
    JsonRpcResponse :=
  match parseNamespacedUri namespacedUri with
  | none =>
    mkErrorResponse (Json.num 0) (-32602)
      ("Invalid resource URI format: " ++ namespacedUri)
  | some (serverId, originalUri) =>
    match getAdapterEnsureStarted reg serverId with
    | Except.error msg => mkErrorResponse (Json.num 0) (-32000) msg
    | Except.ok a =>
      if a.health = AdapterHealth.Healthy then
        match a.respond "resources/read"
            (some (Json.obj [("uri", Json.str originalUri)])) with
        | Except.ok resp => resp
        | Except.error msg => mkErrorResponse (Json.num 0) (-32000) msg
      else
        mkErrorResponse (Json.num 0) (-32000)
          ("Server " ++ serverId ++ " is not healthy")

/-- `Router.routePromptGet`; `arguments` may be `undefined`, in which case
`JSON.stringify` omits the key from the wire object. -/
def routePromptGet (reg : Registry) (namespacedName : String)
    (args : Option Json) : JsonRpcResponse :=
  match parseNamespacedName namespacedName with
  | none =>
    mkErrorResponse (Json.num 0) (-32602)
      ("Invalid prompt name format: " ++ namespacedName)
  | some (serverId, originalName) =>
    match getAdapterEnsureStarted reg serverId with
    | Except.error msg => mkErrorResponse (Json.num 0) (-32000) msg
    | Except.ok a =>
      if a.health = AdapterHealth.Healthy then
        match a.respond "prompts/get"
            (some (Json.obj ([("name", Json.str originalName)] ++
              (match args with
               | some v => [("arguments", v)]
               | none => [])))) with
        | Except.ok resp => resp
        | Except.error msg => mkErrorResponse (Json.num 0) (-32000) msg
      else
        mkErrorResponse (Json.num 0) (-32000)
          ("Server " ++ serverId ++ " is not healthy")

/-! JSON renderings of the sanitized capability lists returned by
`tools/list`, `resources/list`, `prompts/list`: the router's internal
`_serverId` / `_originalName` fields are stripped, leaving the capability
record with its namespaced key. -/

/-- Render a tool as a JSON object (optional fields omitted when absent,
matching `JSON.stringify`). -/
def toolToJson (t : MCPTool) : Json :=
  Json.obj ([("name", Json.str t.name)] ++
    (match t.description with
     | some d => [("description", Json.str d)]
     | none => []) ++
    [("inputSchema", t.inputSchema)])

/-- Render a resource as a JSON object. -/
def resourceToJson (r : MCPResource) : Json :=
  Json.obj ([("uri", Json.str r.uri), ("name", Json.str r.name)] ++
    (match r.description with
     | some d => [("description", Json.str d)]
     | none => []) ++
    (match r.mimeType with
     | some m => [("mimeType", Json.str m)]
     | none => []))

/-- Render a prompt argument as a JSON object. -/
def promptArgumentToJson (a : PromptArgument) : Json :=
  Json.obj ([("name", Json.str a.name)] ++
    (match a.description with
     | some d => [("description", Json.str d)]
     | none => []) ++
    (match a.required with
     | some b => [("required", Json.bool b)]
     | none => []))

/-- Render a prompt as a JSON object. -/
def promptToJson (p : MCPPrompt) : Json :=
  Json.obj ([("name", Json.str p.name)] ++
    (match p.description with
     | some d => [("description", Json.str d)]
     | none => []) ++
    (match p.arguments with
     | some l => [("arguments", Json.arr (l.map promptArgumentToJson))]
     | none => []))

/-- `Gateway.handleInitialize`: advertise each capability group only when at
least one healthy backend offers items in it; reply with server info and the
instructions string listing backend ids. -/
def handleInitialize (reg : Registry) (gwInfo : ServerInfo) (rid : Json) :
    JsonRpcResponse :=
  let caps := getMergedCapabilities reg
  { id := rid,
    result := some (Json.obj
      [("protocolVersion", Json.str "2024-11-05"),
       ("capabilities", Json.obj
         ((if caps.tools.length > 0 then [("tools", Json.obj [])] else []) ++
          (if caps.resources.length > 0 then [("resources", Json.obj [])] else []) ++
          (if caps.prompts.length > 0 then [("prompts", Json.obj [])] else []))),
       ("serverInfo", Json.obj
         [("name", Json.str gwInfo.name), ("version", Json.str gwInfo.version)]),
       ("instructions", Json.str
         ("This is a federated MCP gateway. Tools, resources, and prompts are namespaced with server IDs using the format: serverId"
           ++ NAMESPACE_SEPARATOR ++ "name. Available servers: "
           ++ String.intercalate ", " (getServerIds reg)))]) }

/-- `Gateway.handleToolsList`: merged namespaced tools, internal fields
stripped. -/
def handleToolsList (reg : Registry) (rid : Json) : JsonRpcResponse :=
  { id := rid,
    result := some (Json.obj
      [("tools", Json.arr ((getMergedCapabilities reg).tools.map
        (fun p => toolToJson { p.2 with
          name := createNamespacedName p.1 p.2.name })))]) }

/-- `Gateway.handleResourcesList`. -/
def handleResourcesList (reg : Registry) (rid : Json) : JsonRpcResponse :=
  { id := rid,
    result := some (Json.obj
      [("resources", Json.arr ((getMergedCapabilities reg).resources.map
        (fun p => resourceToJson { p.2 with
          uri := createNamespacedUri p.1 p.2.uri })))]) }

/-- `Gateway.handlePromptsList`. -/
def handlePromptsList (reg : Registry) (rid : Json) : JsonRpcResponse :=
  { id := rid,
    result := some (Json.obj
      [("prompts", Json.arr ((getMergedCapabilities reg).prompts.map
        (fun p => promptToJson { p.2 with
          name := createNamespacedName p.1 p.2.name })))]) }

/-! JavaScript dynamic-value helpers used by the gateway's parameter
handling. -/

/-- JavaScript property access `v.key` (`Except.error` models the
`TypeError` thrown on `undefined`/`null` bases; primitive bases yield
`undefined`). -/
def getProp (v : Option Json) (key : String) : Except String (Option Json) :=
  match v with
  | none => Except.error "TypeError: cannot read properties of undefined"
  | some Json.null => Except.error "TypeError: cannot read properties of null"
  | some (Json.obj kvs) => Except.ok (kvs.lookup key)
  | some _ => Except.ok none

/-- JavaScript falsiness of a possibly-absent value. -/
def isFalsy : Option Json → Bool
  | none => true
  | some Json.null => true
  | some (Json.bool b) => !b
  | some (Json.num q) => q == 0
  | some (Json.str s) => s == ""
  | some (Json.arr _) => false
  | some (Json.obj _) => false

/-- `Gateway.handleToolsCall`: require a truthy `name`, default the
arguments (`callParams.arguments || {}`), route, and restore the client id.
A truthy non-string `name` makes the source throw a `TypeError` inside
`parseNamespacedName` (modelled as `Except.error`; for an array-valued
`name` the source can instead reach the invalid-format reply, but every such
reply carries the caller's id, which is all any claim uses). -/
def handleToolsCall (reg : Registry) (rid : Json) (params : Option Json) :
    Except String JsonRpcResponse :=
  match getProp params "name" with
  | Except.error e => Except.error e
  | Except.ok nameField =>
    if isFalsy nameField then
      Except.ok (mkErrorResponse rid (-32602) "Missing required parameter: name")
    else
      match getProp params "arguments" with
      | Except.error e => Except.error e
      | Except.ok argsField =>
        match nameField with
        | some (Json.str nn) =>
          Except.ok { routeToolCall reg nn
              (if isFalsy argsField then Json.obj []
               else argsField.getD (Json.obj [])) with id := rid }
        | _ => Except.error "TypeError: namespacedName.indexOf is not a function"

/-- `Gateway.handleResourcesRead`: require a truthy `uri`, route, restore
the client id. -/
def handleResourcesRead (reg : Registry) (rid : Json) (params : Option Json) :
    Except String JsonRpcResponse :=
  match getProp params "uri" with
  | Except.error e => Except.error e
  | Except.ok uriField =>
    if isFalsy uriField then
      Except.ok (mkErrorResponse rid (-32602) "Missing required parameter: uri")
    else
      match uriField with
      | some (Json.str u) =>
        Except.ok { routeResourceRead reg u with id := rid }
      | _ => Except.error "TypeError: namespacedUri.match is not a function"

/-- `Gateway.handlePromptsGet`: require a truthy `name`, pass `arguments`
through without defaulting, route, restore the client id. -/
def handlePromptsGet (reg : Registry) (rid : Json) (params : Option Json) :
    Except String JsonRpcResponse :=
  match getProp params "name" with
  | Except.error e => Except.error e
  | Except.ok nameField =>
    if isFalsy nameField then
      Except.ok (mkErrorResponse rid (-32602) "Missing required parameter: name")
    else
      match getProp params "arguments" with
      | Except.error e => Except.error e
      | Except.ok argsField =>
        match nameField with
        | some (Json.str nn) =>
          Except.ok { routePromptGet reg nn argsField with id := rid }
        | _ => Except.error "TypeError: namespacedName.indexOf is not a function"

/-- `Gateway.routeMethod`: the dispatch table of §4.6. -/
def routeMethod (reg : Registry) (gwInfo : ServerInfo) (req : JsonRpcRequest) :
    Except String JsonRpcResponse :=
  match req.method with
  | "initialize" => Except.ok (handleInitialize reg gwInfo req.id)
  | "ping" => Except.ok { id := req.id, result := some (Json.obj []) }
  | "tools/list" => Except.ok (handleToolsList reg req.id)
  | "tools/call" => handleToolsCall reg req.id req.params
  | "resources/list" => Except.ok (handleResourcesList reg req.id)
  | "resources/read" => handleResourcesRead reg req.id req.params
  | "resources/templates/list" =>
    Except.ok { id := req.id,
                result := some (Json.obj [("resourceTemplates", Json.arr [])]) }
  | "prompts/list" => Except.ok (handlePromptsList reg req.id)
  | "prompts/get" => handlePromptsGet reg req.id req.params
  | "notifications/initialized" =>
    Except.ok { id := req.id, result := some (Json.obj []) }
  | "notifications/cancelled" =>
    Except.ok { id := req.id, result := some (Json.obj []) }
  | m => Except.ok (mkErrorResponse req.id (-32601) ("Method not found: " ++ m))

/-- `Gateway.handleRequest`: any exception thrown by a handler becomes a
−32603 reply carrying the request id (the random `correlationId` in `data`
is not modelled). -/
def handleRequest (reg : Registry) (gwInfo : ServerInfo)
    (req : JsonRpcRequest) : JsonRpcResponse :=
  match routeMethod reg gwInfo req with
  | Except.ok resp => resp
  | Except.error msg => mkErrorResponse req.id (-32603) msg

/-! ## The message endpoint (src/api/mcp-routes.ts)

`JsonRpcRequestSchema` is the zod schema
`{ jsonrpc: literal '2.0', id: (string | number | null).optional().default(0),
method: string, params: unknown.optional() }`; `default(0)` applies only
when the field is absent (`undefined`), a present `null` stays `null`.  A
failed parse yields the −32600 reply with `(request.body)?.id || 0`; this
`|| 0` expression also backs the route-level −32603 reply. -/

/-- `JsonRpcRequestSchema.parse` (`none` models a thrown `ZodError`). -/
def parseJsonRpcBody (body : Json) : Option JsonRpcRequest :=
  match body with
  | Json.obj kvs =>
    match kvs.lookup "jsonrpc" with
    | some (Json.str v) =>
      if v == "2.0" then
        match kvs.lookup "method" with
        | some (Json.str m) =>
          match kvs.lookup "id" with
          | none => some { id := Json.num 0, method := m, params := kvs.lookup "params" }
          | some (Json.str s) =>
            some { id := Json.str s, method := m, params := kvs.lookup "params" }
          | some (Json.num q) =>
            some { id := Json.num q, method := m, params := kvs.lookup "params" }
          | some Json.null =>
            some { id := Json.null, method := m, params := kvs.lookup "params" }
          | some _ => none
        | _ => none
      else none
    | _ => none
  | _ => none

/-- `(request.body as { id?: string | number })?.id || 0`: the id used by
the −32600 and route-level −32603 replies. -/
def idOrZero (body : Json) : Json :=
  match body with
  | Json.obj kvs =>
    match kvs.lookup "id" with
    | none => Json.num 0
    | some v => if isFalsy (some v) then Json.num 0 else v
  | _ => Json.num 0

/-- `POST /message`: parse with the zod schema; on success run the gateway;
on a `ZodError` reply −32600 with `idOrZero`.  (The SSE fan-out writes the
same response object to the session stream and does not alter it.) -/
def postMessage (reg : Registry) (gwInfo : ServerInfo) (body : Json) :
    JsonRpcResponse :=
  match parseJsonRpcBody body with
  | some req => handleRequest reg gwInfo req
  | none => mkErrorResponse (idOrZero body) (-32600) "Invalid Request"

/-! Every gateway reply echoes the request id. -/

lemma handleToolsCall_id (reg : Registry) (rid : Json) (params : Option Json)
    (r : JsonRpcResponse) (h : handleToolsCall reg rid params = Except.ok r) :
    r.id = rid := by
  unfold handleToolsCall at h
  split at h
  · cases h
  · split at h
    · cases h; rfl
    · split at h
      · cases h
      · split at h
        · cases h; rfl
        · cases h

lemma handleResourcesRead_id (reg : Registry) (rid : Json)
    (params : Option Json) (r : JsonRpcResponse)
    (h : handleResourcesRead reg rid params = Except.ok r) : r.id = rid := by
  unfold handleResourcesRead at h
  split at h
  · cases h
  · split at h
    · cases h; rfl
    · split at h
      · cases h; rfl
      · cases h

lemma handlePromptsGet_id (reg : Registry) (rid : Json) (params : Option Json)
    (r : JsonRpcResponse) (h : handlePromptsGet reg rid params = Except.ok r) :
    r.id = rid := by
  unfold handlePromptsGet at h
  split at h
  · cases h
  · split at h
    · cases h; rfl
    · split at h
      · cases h
      · split at h
        · cases h; rfl
        · cases h

/-- Every branch of the dispatch table replies with the request's own id. -/
lemma routeMethod_id (reg : Registry) (gwInfo : ServerInfo)
    (req : JsonRpcRequest) (r : JsonRpcResponse)
    (h : routeMethod reg gwInfo req = Except.ok r) : r.id = req.id := by
  unfold routeMethod at h
  split at h
  · cases h; rfl
  · cases h; rfl
  · cases h; rfl
  · exact handleToolsCall_id reg req.id req.params r h
  · cases h; rfl
  · exact handleResourcesRead_id reg req.id req.params r h
  · cases h; rfl
  · cases h; rfl
  · exact handlePromptsGet_id reg req.id req.params r h
  · cases h; rfl
  · cases h; rfl
  · cases h; rfl

/-- `handleRequest` echoes the request id on the success path and on the
−32603 exception path. -/
lemma handleRequest_id (reg : Registry) (gwInfo : ServerInfo)
    (req : JsonRpcRequest) : (handleRequest reg gwInfo req).id = req.id := by
  unfold handleRequest
  split
  · next r h => exact routeMethod_id reg gwInfo req r h
  · rfl

/-- A successful schema parse of a body with no `id` key defaults the id to
`0`. -/
lemma parse_defaults_absent_id (kvs : List (String × Json))
    (req : JsonRpcRequest) (hid : kvs.lookup "id" = none)
    (h : parseJsonRpcBody (Json.obj kvs) = some req) : req.id = Json.num 0 := by
  simp only [parseJsonRpcBody] at h
  split at h
  · split at h
    · split at h
      · rw [hid] at h
        cases h; rfl
      · cases h
    · cases h
  · cases h

/-- **C9.** Absent-id defaulting: for every inbound body that is a JSON
object without an `id` member, the `POST /message` reply carries id `0` —
on the success path (the zod default makes `req.id = 0` and every gateway
reply echoes it, including the −32603 exception reply) and on the −32600
invalid-request path (`body?.id || 0`). -/
theorem absent_id_defaults_to_zero (reg : Registry) (gwInfo : ServerInfo)
    (kvs : List (String × Json)) (hid : kvs.lookup "id" = none) :
    (postMessage reg gwInfo (Json.obj kvs)).id = Json.num 0 := by
  unfold postMessage
  cases hparse : parseJsonRpcBody (Json.obj kvs) with
  | none =>
    show (mkErrorResponse (idOrZero (Json.obj kvs)) (-32600) "Invalid Request").id
        = Json.num 0
    simp only [idOrZero]
    rw [hid]
    rfl
  | some req =>
    show (handleRequest reg gwInfo req).id = Json.num 0
    rw [handleRequest_id reg gwInfo req]
    exact parse_defaults_absent_id kvs req hid hparse

/-- **C9 witness.** A `ping` probe without an id, against an empty registry,
is answered with id `0`. -/
theorem absent_id_defaults_to_zero_witness :
    (postMessage [] { name := "mcp-gateway", version := "1.0.0" }
      (Json.obj [("jsonrpc", Json.str "2.0"), ("method", Json.str "ping")])).id
      = Json.num 0 :=
  absent_id_defaults_to_zero [] { name := "mcp-gateway", version := "1.0.0" }
    [("jsonrpc", Json.str "2.0"), ("method", Json.str "ping")] rfl

/-! ## Tool-call routing end to end (C2) -/

/-- `handleToolsCall` on a well-formed `tools/call` params object with a
non-empty string name reduces to routing plus the id restore. -/
lemma handleToolsCall_str_name (reg : Registry) (rid : Json) (nn : String)
    (argkvs : List (String × Json)) (hnn : (nn == "") = false) :
    handleToolsCall reg rid (some (Json.obj [("name", Json.str nn),
        ("arguments", Json.obj argkvs)]))
      = Except.ok { routeToolCall reg nn (Json.obj argkvs) with id := rid } := by
  have h1 : getProp (some (Json.obj [("name", Json.str nn),
      ("arguments", Json.obj argkvs)])) "name" = Except.ok (some (Json.str nn)) := rfl
  have h2 : getProp (some (Json.obj [("name", Json.str nn),
      ("arguments", Json.obj argkvs)])) "arguments"
      = Except.ok (some (Json.obj argkvs)) := rfl
  unfold handleToolsCall
  simp only [h1, h2, isFalsy, hnn]
  rfl

/-- **C2.** Tool-call routing: when the namespaced name parses as `(s, n)`
and the registry yields adapter `a` for `s` (lazy-starting it exactly when
it is not connected — first conjunct), then: if `a` is not healthy the reply
is the −32000 "not healthy" error; if `a` is healthy, exactly one
`tools/call` request carrying the unprefixed name `n` and the client's
arguments object unchanged is forwarded to the adapter, and its response is
returned verbatim with only the id overwritten by the client-supplied
request id. -/
theorem tool_call_routing (reg : Registry) (rid : Json) (nn s n : String)
    (argkvs : List (String × Json)) (a : AdapterView)
    (hparse : parseNamespacedName nn = some (s, n))
    (hens : getAdapterEnsureStarted reg s = Except.ok a) :
    (∀ m, reg.lookup s = some m →
      getAdapterEnsureStarted reg s
        = if m.connected then Except.ok m.view else m.startResult) ∧
    (a.health ≠ AdapterHealth.Healthy →
      handleToolsCall reg rid (some (Json.obj [("name", Json.str nn),
          ("arguments", Json.obj argkvs)]))
        = Except.ok (mkErrorResponse rid (-32000)
            ("Server " ++ s ++ " is not healthy"))) ∧
    (∀ resp, a.health = AdapterHealth.Healthy →
      a.respond "tools/call" (some (Json.obj [("name", Json.str n),
          ("arguments", Json.obj argkvs)])) = Except.ok resp →
      handleToolsCall reg rid (some (Json.obj [("name", Json.str nn),
          ("arguments", Json.obj argkvs)]))
        = Except.ok { resp with id := rid }) := by
  have hnn : (nn == "") = false := by
    by_cases hq : nn = ""
    · subst hq
      rw [show parseNamespacedName "" = none from rfl] at hparse
      cases hparse
    · exact beq_eq_false_iff_ne.mpr hq
  refine ⟨?_, ?_, ?_⟩
  · intro m hm
    unfold getAdapterEnsureStarted
    rw [hm]
  · intro hne
    rw [handleToolsCall_str_name reg rid nn argkvs hnn]
    have hrt : routeToolCall reg nn (Json.obj argkvs)
        = mkErrorResponse (Json.num 0) (-32000)
            ("Server " ++ s ++ " is not healthy") := by
      unfold routeToolCall
      simp only [hparse, hens]
      rw [if_neg hne]
    rw [hrt]
    rfl
  · intro resp hh hresp
    rw [handleToolsCall_str_name reg rid nn argkvs hnn]
    have hrt : routeToolCall reg nn (Json.obj argkvs) = resp := by
      unfold routeToolCall
      simp only [hparse, hens, hresp]
      rw [if_pos hh]
    rw [hrt]

/-- A healthy backend `fs` exposing one tool and answering every request
with `respEx`. -/
def respEx : JsonRpcResponse :=
  { id := Json.num 5, result := some (Json.str "ok") }

def fsView : AdapterView :=
  { health := AdapterHealth.Healthy,
    capabilities := some
      { tools := some [{ name := "read_file",
                         inputSchema := Json.obj [("type", Json.str "object")] }] },
    respond := fun _method _params => Except.ok respEx }

def fsAdapter : AdapterModel :=
  { connected := true, view := fsView, startResult := Except.ok fsView }

def regEx : Registry := [("fs", fsAdapter)]

/-- **C2 witness.** `tools/call` with name `fs__read_file` and arguments
`{"path": "/a"}` against the healthy `fs` backend: the adapter's answer is
returned with only the id replaced by the client's id `1`. -/
theorem tool_call_routing_witness :
    handleToolsCall regEx (Json.num 1)
        (some (Json.obj [("name", Json.str "fs__read_file"),
            ("arguments", Json.obj [("path", Json.str "/a")])]))
      = Except.ok { respEx with id := Json.num 1 } :=
  (tool_call_routing regEx (Json.num 1) "fs__read_file" "fs" "read_file"
      [("path", Json.str "/a")] fsView (by decide) rfl).2.2 respEx rfl rfl

end MCPGateway
